import Mathlib

/-
  Shallow embedding of `src/notebook/static/tree/js/treeactions.js`, a
  keyboard-action registry for the notebook file-list UI.

  Modelling conventions:
  - External collaborators reached through the environment (the
    `notebooklist` and `notebook` objects) are black boxes; they are
    modelled as a record of abstract methods over an abstract world
    state `σ`: queries are functions `σ → value`, effectful methods are
    state transformers `σ → σ`.  Handlers are explicit state-passing
    translations of the JS handler bodies.
  - A DOM event is modelled by the one bit the code mutates,
    `defaultPrevented`; `preventDefault` sets it.
  - JS `undefined`-or-string fields are `Option String` (`none` is
    `undefined`); JS `x || y` defaulting on such fields is `strOr`
    (both `undefined` and the empty string are falsy).
  - A JS function value is a `JSFunction`: its denotation `fn` together
    with its textual representation `src` (what `String(f)` yields); two
    syntactically distinct functions have distinct `src`.
  - JS exceptions are `Except JSError`: member access on `undefined`
    throws `JSError.typeError`, and `throw('...')` of a string literal
    is `JSError.thrownString`.  The spec calls the former failure (from
    `call` on an unknown name) `ActionNotFound` and the latter (from
    `normalise`) `InvalidAction`.
  - The prototype's shared `_actions` table is a piece of state passed
    to every method next to the instance (`self`); instances are sealed
    with only an own `env`, so `this._actions` always resolves through
    the prototype to the one shared table (`actions_of`).
  - The registry object is an association list with JS-object lookup
    semantics: `List.lookup` finds the most recent binding, and
    assignment prepends, which models overwrite.
-/

namespace Treeactions

/-- A DOM event, reduced to the only part of it this code touches. -/
structure Event where
  defaultPrevented : Bool
deriving DecidableEq

/-- Embeds `event.preventDefault()`. -/
def Event.preventDefault (_e : Event) : Event := ⟨true⟩

/-- The JS values this code returns from handlers. -/
inductive JSValue where
  | undef
  | bool (b : Bool)
  | num (n : Int)
deriving DecidableEq

/-- The two failure shapes of this code: a TypeError from accessing a
property of `undefined`, and an explicitly thrown string. -/
inductive JSError where
  | typeError (msg : String)
  | thrownString (msg : String)
deriving DecidableEq

/-- A CodeMirror cursor position, as used by `getCursor()`. -/
structure CursorPos where
  line : Int
  ch : Int

/-- A notebook cell, reduced to the two queries the handlers make. -/
structure Cell where
  at_top : Bool
  at_bottom : Bool

/-- The `notebooklist` collaborator: abstract methods over a world state
`σ`.  `open_item` embeds the source's `notebooklist.open()`. -/
structure NotebookListAPI (σ : Type) where
  get_length_siblings : σ → String → Int
  open_item : σ → σ
  get_selected_index : σ → Int
  select_row : σ → Int → σ

/-- The `notebook` collaborator: abstract methods over a world state `σ`.
`selected_cm_getCursor`, `selected_cm_lastLine` and `selected_cm_setCursor`
embed `get_selected_cell().code_mirror.getCursor()` / `.lastLine()` /
`.setCursor(l, c)` (operations on the currently selected cell's editor).
`scroll` embeds `scroll_manager.scroll(n)`, returning a value and a new
state; so does `scroll_cell_percent`.  `get_cell` may return `none`
(JS `null`/`undefined`). -/
structure NotebookAPI (σ : Type) where
  get_selected_index : σ → Int
  get_cell : σ → Int → Option Cell
  selected_cm_getCursor : σ → CursorPos
  selected_cm_lastLine : σ → Int
  selected_cm_setCursor : σ → Int → Int → σ
  command_mode : σ → σ
  select_prev : σ → σ
  select_next : σ → σ
  edit_mode : σ → σ
  ncells : σ → Int
  scroll : σ → Int → JSValue × σ
  scroll_cell_percent : σ → Int → Int → Int → JSValue × σ
  save_checkpoint : σ → σ

/-- The environment bag handed to handlers (the fields this file's
handlers actually dereference). -/
structure Env (σ : Type) where
  notebooklist : NotebookListAPI σ
  notebook : NotebookAPI σ

/-- The uniform signature of a stored (wrapped) handler: it receives the
environment and the optional triggering event, transforms the world and
the event, and returns a JS value, or throws. -/
abbrev HandlerFun (σ : Type) :=
  Env σ → σ → Option Event → Except JSError (σ × Option Event × JSValue)

/-- A JS function value: its denotation together with its textual
representation (`String(f)`).  Syntactically distinct functions have
distinct `src`; the same reference always has the same `src`. -/
structure JSFunction (σ : Type) where
  src : String
  fn : HandlerFun σ

/-- Embeds JS `x || d` for a possibly-`undefined` string `x`: both
`undefined` and `""` are falsy and fall through to the default. -/
def strOr (a : Option String) (b : String) : String :=
  match a with
  | none => b
  | some s => if s = "" then b else s

/-- Embeds the source's global dash-replacement `subkey.replace(dash, space)`:
every dash becomes a space. -/
def dashToSpace (s : String) : String :=
  String.mk (s.data.map (fun c => if c = '-' then ' ' else c))

/-! ## The `Simple Actions` table (`_actions` in the source) -/

/-- Raw entry of the `_actions` table: optional metadata plus a handler
taking only the environment. -/
structure SimpleSource (σ : Type) where
  help : Option String
  help_index : Option String
  icon : Option String
  handler : Env σ → σ → σ

/-- Handler of `enter-row`. -/
def enter_row_handler (σ : Type) (env : Env σ) (s : σ) : σ :=
  let len_sib := env.notebooklist.get_length_siblings s ".focus"
  if len_sib > 0 then env.notebooklist.open_item s else s

/-- Handler of `select-previous-row`. -/
def select_previous_row_handler (σ : Type) (env : Env σ) (s : σ) : σ :=
  let focused := env.notebooklist.get_length_siblings s ".focus"
  let s1 :=
    if focused > 0 then
      let index := env.notebooklist.get_selected_index s
      if index > 0 then env.notebooklist.select_row s (index - 1) else s
    else s
  if focused = 0 then env.notebooklist.select_row s1 0 else s1

/-- Handler of `select-next-row`. -/
def select_next_row_handler (σ : Type) (env : Env σ) (s : σ) : σ :=
  let focused := env.notebooklist.get_length_siblings s ".focus"
  let len_sib := env.notebooklist.get_length_siblings s ".list_item"
  let s1 :=
    if focused > 0 then
      let index := env.notebooklist.get_selected_index s
      if index < len_sib then env.notebooklist.select_row s (index + 1) else s
    else s
  if focused = 0 then env.notebooklist.select_row s1 0 else s1

/-- The `enter-row` table entry. -/
def enter_row_src (σ : Type) : SimpleSource σ :=
  ⟨some "opens active file or directory", some "aa", none, enter_row_handler σ⟩

/-- The `select-previous-row` table entry. -/
def select_previous_row_src (σ : Type) : SimpleSource σ :=
  ⟨some "moves focus to previous file or directory", some "ab", none,
    select_previous_row_handler σ⟩

/-- The `select-next-row` table entry. -/
def select_next_row_src (σ : Type) : SimpleSource σ :=
  ⟨some "moves focus to next file or directory", some "ac", none,
    select_next_row_handler σ⟩

/-- The source's `_actions` table of `Simple Actions`, in source order. -/
def _actions (σ : Type) : List (String × SimpleSource σ) :=
  [("enter-row", enter_row_src σ),
   ("select-previous-row", select_previous_row_src σ),
   ("select-next-row", select_next_row_src σ)]

/-! ## The `Advance actions` table (`custom_ignore` in the source) -/

/-- Raw entry of the `custom_ignore` table: optional metadata plus a
handler taking environment and event, with full responsibility for the
event and the return value. -/
structure AdvancedSource (σ : Type) where
  help : Option String
  help_index : Option String
  icon : Option String
  handler : HandlerFun σ

/-- Handler of `ignore`: takes no argument and returns `true`. -/
def ignore_handler (σ : Type) : HandlerFun σ :=
  fun _env s ev => Except.ok (s, ev, JSValue.bool true)

/-- Handler of `move-cursor-up-or-previous-cell`.  The JS guards on the
truthiness of `cell` before calling `cell.at_top()`. -/
def move_cursor_up_or_previous_cell_handler (σ : Type) : HandlerFun σ :=
  fun env s ev =>
    let index := env.notebook.get_selected_index s
    let cell := env.notebook.get_cell s index
    let cur := env.notebook.selected_cm_getCursor s
    match cell with
    | none => Except.ok (s, ev, JSValue.bool false)
    | some c =>
      if c.at_top && !(index = 0) && (cur.ch = 0) then
        let ev1 := ev.map Event.preventDefault
        let s1 := env.notebook.command_mode s
        let s2 := env.notebook.select_prev s1
        let s3 := env.notebook.edit_mode s2
        let s4 := env.notebook.selected_cm_setCursor s3
          (env.notebook.selected_cm_lastLine s3) 0
        Except.ok (s4, ev1, JSValue.bool false)
      else Except.ok (s, ev, JSValue.bool false)

/-- Handler of `move-cursor-down-or-next-cell`.  The JS calls
`cell.at_bottom()` without a null check, so a missing cell throws. -/
def move_cursor_down_or_next_cell_handler (σ : Type) : HandlerFun σ :=
  fun env s ev =>
    let index := env.notebook.get_selected_index s
    match env.notebook.get_cell s index with
    | none =>
      Except.error (JSError.typeError "Cannot read property at_bottom of undefined")
    | some c =>
      if c.at_bottom && !(index = env.notebook.ncells s - 1) then
        let ev1 := ev.map Event.preventDefault
        let s1 := env.notebook.command_mode s
        let s2 := env.notebook.select_next s1
        let s3 := env.notebook.edit_mode s2
        let s4 := env.notebook.selected_cm_setCursor s3 0 0
        Except.ok (s4, ev1, JSValue.bool false)
      else Except.ok (s, ev, JSValue.bool false)

/-- Handler of `scroll-down`. -/
def scroll_down_handler (σ : Type) : HandlerFun σ :=
  fun env s ev =>
    let ev1 := ev.map Event.preventDefault
    let r := env.notebook.scroll s 1
    Except.ok (r.2, ev1, r.1)

/-- Handler of `scroll-up`. -/
def scroll_up_handler (σ : Type) : HandlerFun σ :=
  fun env s ev =>
    let ev1 := ev.map Event.preventDefault
    let r := env.notebook.scroll s (-1)
    Except.ok (r.2, ev1, r.1)

/-- Handler of `scroll-cell-center`. -/
def scroll_cell_center_handler (σ : Type) : HandlerFun σ :=
  fun env s ev =>
    let ev1 := ev.map Event.preventDefault
    let cell := env.notebook.get_selected_index s
    let r := env.notebook.scroll_cell_percent s cell 50 0
    Except.ok (r.2, ev1, r.1)

/-- Handler of `scroll-cell-top`. -/
def scroll_cell_top_handler (σ : Type) : HandlerFun σ :=
  fun env s ev =>
    let ev1 := ev.map Event.preventDefault
    let cell := env.notebook.get_selected_index s
    let r := env.notebook.scroll_cell_percent s cell 0 0
    Except.ok (r.2, ev1, r.1)

/-- Handler of `save-notebook`. -/
def save_notebook_handler (σ : Type) : HandlerFun σ :=
  fun env s ev =>
    let s1 := env.notebook.save_checkpoint s
    let ev1 := ev.map Event.preventDefault
    Except.ok (s1, ev1, JSValue.bool false)

/-- The `ignore` table entry. -/
def ignore_src (σ : Type) : AdvancedSource σ :=
  ⟨none, none, none, ignore_handler σ⟩

/-- The `move-cursor-up-or-previous-cell` table entry. -/
def move_cursor_up_or_previous_cell_src (σ : Type) : AdvancedSource σ :=
  ⟨none, none, none, move_cursor_up_or_previous_cell_handler σ⟩

/-- The `move-cursor-down-or-next-cell` table entry. -/
def move_cursor_down_or_next_cell_src (σ : Type) : AdvancedSource σ :=
  ⟨none, none, none, move_cursor_down_or_next_cell_handler σ⟩

/-- The `scroll-down` table entry. -/
def scroll_down_src (σ : Type) : AdvancedSource σ :=
  ⟨none, none, none, scroll_down_handler σ⟩

/-- The `scroll-up` table entry. -/
def scroll_up_src (σ : Type) : AdvancedSource σ :=
  ⟨none, none, none, scroll_up_handler σ⟩

/-- The `scroll-cell-center` table entry. -/
def scroll_cell_center_src (σ : Type) : AdvancedSource σ :=
  ⟨some "Scroll the current cell to the center", none, none,
    scroll_cell_center_handler σ⟩

/-- The `scroll-cell-top` table entry. -/
def scroll_cell_top_src (σ : Type) : AdvancedSource σ :=
  ⟨some "Scroll the current cell to the top", none, none,
    scroll_cell_top_handler σ⟩

/-- The `save-notebook` table entry. -/
def save_notebook_src (σ : Type) : AdvancedSource σ :=
  ⟨some "Save and Checkpoint", some "fb", some "fa-save",
    save_notebook_handler σ⟩

/-- The source's `custom_ignore` table of `Advance actions`, in source
order. -/
def custom_ignore (σ : Type) : List (String × AdvancedSource σ) :=
  [("ignore", ignore_src σ),
   ("move-cursor-up-or-previous-cell", move_cursor_up_or_previous_cell_src σ),
   ("move-cursor-down-or-next-cell", move_cursor_down_or_next_cell_src σ),
   ("scroll-down", scroll_down_src σ),
   ("scroll-up", scroll_up_src σ),
   ("scroll-cell-center", scroll_cell_center_src σ),
   ("scroll-cell-top", scroll_cell_top_src σ),
   ("save-notebook", save_notebook_src σ)]

/-! ## Registry construction (`_prepare_handler` and `fun` in the source) -/

/-- A registry entry, as assembled by `_prepare_handler` plus the
wrapping loops in `fun`: `help` is always assigned a string, while
`help_index` and `icon` are copied through from the source table and may
be `undefined` (`none`). -/
structure ActionRecord (σ : Type) where
  help : String
  help_index : Option String
  icon : Option String
  handler : HandlerFun σ

/-- The wrapper the first loop of `fun` puts around a simple handler:
call the raw handler with the environment only, then suppress the
event's default behavior when an event is supplied, then return
`false`. -/
def wrap_simple (σ : Type) (h : Env σ → σ → σ) : HandlerFun σ :=
  fun env s ev =>
    let s1 := h env s
    let ev1 := ev.map Event.preventDefault
    Except.ok (s1, ev1, JSValue.bool false)

/-- The wrapper the second loop of `fun` puts around an advanced
handler: pass environment and event straight through and return the raw
handler's result unchanged. -/
def wrap_advanced (σ : Type) (h : HandlerFun σ) : HandlerFun σ :=
  fun env s ev => h env s ev

/-- `_prepare_handler` on a `_actions` entry, combined with the simple
wrapping in `fun`: the qualified name gets the `ipython.` prefix, `help`
falls back to the dash-to-space form of the base name, `help_index` and
`icon` are copied through unchanged. -/
def prepare_simple (σ : Type) (subkey : String) (src : SimpleSource σ) :
    String × ActionRecord σ :=
  ("ipython." ++ subkey,
    ⟨strOr src.help (dashToSpace subkey), src.help_index, src.icon,
      wrap_simple σ src.handler⟩)

/-- `_prepare_handler` on a `custom_ignore` entry, combined with the
advanced wrapping in `fun`. -/
def prepare_advanced (σ : Type) (subkey : String) (src : AdvancedSource σ) :
    String × ActionRecord σ :=
  ("ipython." ++ subkey,
    ⟨strOr src.help (dashToSpace subkey), src.help_index, src.icon,
      wrap_advanced σ src.handler⟩)

/-- The registry object built by the source's `fun`: the simple table
then the advanced table, each entry prepared and wrapped. -/
def final_actions (σ : Type) : List (String × ActionRecord σ) :=
  (_actions σ).map (fun p => prepare_simple σ p.1 p.2) ++
    (custom_ignore σ).map (fun p => prepare_advanced σ p.1 p.2)

/-! ## The `ActionHandler` methods -/

/-- The registry mapping, with JS-object semantics: lookup finds the
most recent binding for a key. -/
abbrev Registry (σ : Type) := List (String × ActionRecord σ)

/-- An `ActionHandler` instance.  The constructor stores `env` and seals
the object, so `env` is its only own property. -/
structure ActionHandler (σ : Type) where
  env : Env σ

/-- Resolution of `this._actions`: the constructor seals instances with
`env` as their only own property, so the lookup always reaches
`ActionHandler.prototype._actions`, the one table shared by every
instance. -/
def actions_of (σ : Type) (proto : Registry σ) (_self : ActionHandler σ) :
    Registry σ :=
  proto

/-- An action record offered to `normalise`: an optional handler field
(`none` models an absent or non-callable handler) plus optional
metadata. -/
structure RawAction (σ : Type) where
  handler : Option (JSFunction σ)
  help : Option String
  help_index : Option String
  icon : Option String

/-- The argument of `normalise` and `register`: either a bare function
or a (partial) action record. -/
inductive ActionData (σ : Type) where
  | func (f : JSFunction σ)
  | record (r : RawAction σ)

/-- The output of `normalise`: handler plus the three metadata fields,
all strings, in the source's assignment order (help, icon,
help_index). -/
structure NormAction (σ : Type) where
  handler : JSFunction σ
  help : String
  icon : String
  help_index : String

/-- `ActionHandler.prototype.normalise`: wrap a bare function into a
record, throw on a missing (or non-callable) handler, otherwise rebuild
the record with the metadata defaulted to the empty string. -/
def normalise (σ : Type) (data : ActionData σ) :
    Except JSError (NormAction σ) :=
  let r : RawAction σ :=
    match data with
    | ActionData.func f => ⟨some f, none, none, none⟩
    | ActionData.record r => r
  match r.handler with
  | none => Except.error (JSError.thrownString "unknown datatype, cannot register")
  | some h =>
    Except.ok ⟨h, strOr r.help "", strOr r.icon "", strOr r.help_index ""⟩

/-- The registry entry stored for a normalised action: all three
metadata fields are (defined) strings. -/
def toRecord (σ : Type) (act : NormAction σ) : ActionRecord σ :=
  ⟨act.help, some act.help_index, some act.icon, act.handler.fn⟩

/-- `ActionHandler.prototype.register`: normalise the data first (a
throw there propagates with the shared table and the held environment
untouched), then derive the name — `'autogenerated-' + String(handler)`
when no (truthy) name is given — default the prefix to `'auto'`, store
the entry in the shared prototype table, and return the full name. -/
def register (σ : Type) (proto : Registry σ) (self : ActionHandler σ)
    (action : ActionData σ) (name pfx : Option String) :
    Registry σ × Except JSError String :=
  match normalise σ action with
  | Except.error e => (proto, Except.error e)
  | Except.ok act =>
    let name1 :=
      match name with
      | none => "autogenerated-" ++ act.handler.src
      | some n => if n = "" then "autogenerated-" ++ act.handler.src else n
    let full_name := strOr pfx "auto" ++ "." ++ name1
    ((full_name, toRecord σ act) :: actions_of σ proto self,
      Except.ok full_name)

/-- `ActionHandler.prototype.get`: plain lookup, `undefined` (`none`)
for unknown names. -/
def get (σ : Type) (proto : Registry σ) (self : ActionHandler σ)
    (name : String) : Option (ActionRecord σ) :=
  List.lookup name (actions_of σ proto self)

/-- `ActionHandler.prototype.exists`: presence check on the shared
table. -/
def exists_action (σ : Type) (proto : Registry σ) (self : ActionHandler σ)
    (name : String) : Bool :=
  (List.lookup name (actions_of σ proto self)).isSome

/-- `ActionHandler.prototype.call`: look the name up in the shared
table — on an unknown name, reading `.handler` of `undefined` throws a
TypeError (the failure the spec names `ActionNotFound`) — then invoke
the stored handler with the supplied environment, or the held one when
none (falsy) is supplied, and the event. -/
def call (σ : Type) (proto : Registry σ) (self : ActionHandler σ)
    (name : String) (ev : Option Event) (env : Option (Env σ)) (s : σ) :
    Except JSError (σ × Option Event × JSValue) :=
  match List.lookup name (actions_of σ proto self) with
  | none => Except.error (JSError.typeError "Cannot read property handler of undefined")
  | some act => act.handler (env.getD self.env) s ev

/-! ## Concrete fixtures for witnesses -/

/-- A trivial `notebooklist` collaborator over the one-point world. -/
def unitNotebookList : NotebookListAPI Unit :=
  ⟨fun _ _ => 0, fun _ => (), fun _ => 0, fun _ _ => ()⟩

/-- A trivial `notebook` collaborator over the one-point world. -/
def unitNotebook : NotebookAPI Unit :=
  ⟨fun _ => 0, fun _ _ => none, fun _ => ⟨0, 0⟩, fun _ => 0, fun _ _ _ => (),
    fun _ => (), fun _ => (), fun _ => (), fun _ => (), fun _ => 0,
    fun _ _ => (JSValue.undef, ()), fun _ _ _ _ => (JSValue.undef, ()),
    fun _ => ()⟩

/-- A concrete environment over the one-point world. -/
def unitEnv : Env Unit := ⟨unitNotebookList, unitNotebook⟩

/-- A concrete `ActionHandler` instance. -/
def unitInstance : ActionHandler Unit := ⟨unitEnv⟩

/-- A second concrete `ActionHandler` instance, constructed separately. -/
def unitInstance2 : ActionHandler Unit := ⟨unitEnv⟩

/-- A concrete stored-handler denotation for fixture functions. -/
def unitHandlerFun : HandlerFun Unit :=
  fun _ s ev => Except.ok (s, ev, JSValue.undef)

/-- A concrete JS function value. -/
def fnA : JSFunction Unit := ⟨"function a(env)", unitHandlerFun⟩

/-- A second, syntactically distinct, concrete JS function value. -/
def fnB : JSFunction Unit := ⟨"function b(env)", unitHandlerFun⟩

/-! ## Shared lemmas -/

/-- `normalise` on a record without a callable handler throws the
source's string. -/
theorem normalise_record_none (σ : Type) (r : RawAction σ)
    (h : r.handler = none) :
    normalise σ (ActionData.record r)
      = Except.error (JSError.thrownString "unknown datatype, cannot register") := by
  obtain ⟨hd, h1, h2, h3⟩ := r
  cases hd with
  | none => rfl
  | some f => exact Option.noConfusion h

/-! ## Claims -/

/-- Claim C1: for every name with no registered entry, `call` (the
spec's `invoke`) fails by raising an error — the TypeError from reading
`.handler` of `undefined`, which the spec names `ActionNotFound` —
rather than returning a sentinel. -/
theorem claim_C1 (σ : Type) (proto : Registry σ) (self : ActionHandler σ)
    (name : String) (ev : Option Event) (env : Option (Env σ)) (s : σ)
    (h : List.lookup name proto = none) :
    call σ proto self name ev env s
      = Except.error (JSError.typeError "Cannot read property handler of undefined") := by
  unfold call actions_of
  rw [h]

/-- Witness for C1: in the built-in registry, `"no.such.action"` has no
entry and `call` on it fails. -/
theorem claim_C1_witness :
    List.lookup "no.such.action" (final_actions Unit) = none ∧
    call Unit (final_actions Unit) unitInstance "no.such.action" none none ()
      = Except.error (JSError.typeError "Cannot read property handler of undefined") :=
  ⟨rfl, claim_C1 Unit (final_actions Unit) unitInstance "no.such.action"
    none none () rfl⟩

/-- Claim C2: for every built-in simple action and every environment,
invoking it with an event yields the event with its default suppressed
and the return value `false`, whatever the raw handler did to the
world. -/
theorem claim_C2 (σ : Type) (env : Env σ) (s : σ) (e : Event) (k : String)
    (src : SimpleSource σ) (_mem : (k, src) ∈ _actions σ) :
    ∃ s1,
      ((prepare_simple σ k src).2).handler env s (some e)
        = Except.ok (s1, some (Event.preventDefault e), JSValue.bool false) ∧
      (Event.preventDefault e).defaultPrevented = true :=
  ⟨src.handler env s, rfl, rfl⟩

/-- Witness for C2: the `enter-row` built-in, on a concrete environment
and an event whose default is not yet prevented. -/
theorem claim_C2_witness :
    ∃ s1,
      ((prepare_simple Unit "enter-row" (enter_row_src Unit)).2).handler
          unitEnv () (some ⟨false⟩)
        = Except.ok (s1, some (Event.preventDefault ⟨false⟩), JSValue.bool false) ∧
      (Event.preventDefault ⟨false⟩).defaultPrevented = true :=
  claim_C2 Unit unitEnv () ⟨false⟩ "enter-row" (enter_row_src Unit)
    (List.Mem.head _)

/-- Claim C3: for every built-in advanced action, invoking it returns
exactly the raw handler's result (same world, same event, same value —
so no default-suppression beyond the raw handler's own); in particular
the `ignore` action, whose raw handler unconditionally returns `true`,
returns `true`. -/
theorem claim_C3 (σ : Type) (env : Env σ) (s : σ) (ev : Option Event)
    (k : String) (src : AdvancedSource σ) (_mem : (k, src) ∈ custom_ignore σ) :
    ((prepare_advanced σ k src).2).handler env s ev = src.handler env s ev ∧
    ((prepare_advanced σ "ignore" (ignore_src σ)).2).handler env s ev
      = Except.ok (s, ev, JSValue.bool true) :=
  ⟨rfl, rfl⟩

/-- Witness for C3: the `ignore` built-in on a concrete environment. -/
theorem claim_C3_witness :
    ((prepare_advanced Unit "ignore" (ignore_src Unit)).2).handler
        unitEnv () none
      = (ignore_src Unit).handler unitEnv () none ∧
    ((prepare_advanced Unit "ignore" (ignore_src Unit)).2).handler
        unitEnv () none
      = Except.ok ((), none, JSValue.bool true) :=
  claim_C3 Unit unitEnv () none "ignore" (ignore_src Unit) (List.Mem.head _)

/-- Claim C7: `normalise` of a bare callable returns the complete record
whose handler is the very function passed in and whose three metadata
fields are the empty string. -/
theorem claim_C7 (σ : Type) (f : JSFunction σ) :
    normalise σ (ActionData.func f) = Except.ok ⟨f, "", "", ""⟩ := rfl

/-- Claim C8: `normalise` of data with no callable handler — e.g. the
empty record — fails synchronously with the thrown error the spec names
`InvalidAction`. -/
theorem claim_C8 (σ : Type) (r : RawAction σ) (h : r.handler = none) :
    normalise σ (ActionData.record r)
      = Except.error (JSError.thrownString "unknown datatype, cannot register") :=
  normalise_record_none σ r h

/-- Witness for C8: the empty record. -/
theorem claim_C8_witness :
    normalise Unit (ActionData.record ⟨none, none, none, none⟩)
      = Except.error (JSError.thrownString "unknown datatype, cannot register") :=
  claim_C8 Unit ⟨none, none, none, none⟩ rfl

/-- Claim C10: `register` on data with no callable handler throws before
performing any mutation: the shared table comes back exactly as it was,
and the held environment is untouched (the embedding of `register` never
reads or writes `self.env` at all). -/
theorem claim_C10 (σ : Type) (proto : Registry σ) (self : ActionHandler σ)
    (r : RawAction σ) (h : r.handler = none) (name pfx : Option String) :
    register σ proto self (ActionData.record r) name pfx
      = (proto, Except.error (JSError.thrownString "unknown datatype, cannot register")) := by
  unfold register
  rw [normalise_record_none σ r h]

/-- Witness for C10: registering the empty record on the built-in
registry leaves it unchanged and reports the error. -/
theorem claim_C10_witness :
    register Unit (final_actions Unit) unitInstance
        (ActionData.record ⟨none, none, none, none⟩) none none
      = (final_actions Unit,
          Except.error (JSError.thrownString "unknown datatype, cannot register")) :=
  claim_C10 Unit (final_actions Unit) unitInstance ⟨none, none, none, none⟩
    rfl none none

/-- String append is left-cancellative. -/
theorem append_left_inj (a s t : String) (h : a ++ s = a ++ t) : s = t := by
  have h2 := congrArg String.data h
  simp only [String.data_append] at h2
  exact String.ext (List.append_cancel_left h2)

/-- A successful `register` returns the name it stored under and the
shared table extended with exactly that binding. -/
theorem register_ok_shape (σ : Type) (proto : Registry σ)
    (self : ActionHandler σ) (data : ActionData σ) (name pfx : Option String)
    (proto2 : Registry σ) (n : String)
    (h : register σ proto self data name pfx = (proto2, Except.ok n)) :
    ∃ act : NormAction σ, proto2 = (n, toRecord σ act) :: proto := by
  unfold register at h
  cases hn : normalise σ data with
  | error e =>
    rw [hn] at h
    exact absurd h (by simp)
  | ok act =>
    rw [hn] at h
    injection h with h1 h2
    injection h2 with h3
    refine ⟨act, ?_⟩
    rw [← h1, h3]
    rfl

/-- Claim C4 (counterexample): the built-in record `ipython.ignore` is
reachable through the registry, yet its `icon` and `help_index` fields
are `undefined` (`none`), not the empty string, so the claimed
data-model invariant fails on it. -/
theorem claim_C4_counterexample :
    ∃ r, List.lookup "ipython.ignore" (final_actions Unit) = some r ∧
      r.icon = none ∧ r.help_index = none :=
  ⟨(prepare_advanced Unit "ignore" (ignore_src Unit)).2, rfl, rfl, rfl⟩

/-- Claim C4 (amended): every reachable record has a present, callable
handler and a string `help` (both enforced by construction in
`ActionRecord`); records produced by `normalise` — hence everything
added through `register` — carry defined strings in `help_index` and
`icon`; but built-in records copy `help_index` and `icon` through from
the source table unchanged, so those two fields are `undefined` when the
table omits them. -/
theorem claim_C4_amended (σ : Type) (data : ActionData σ) (act : NormAction σ)
    (_hnorm : normalise σ data = Except.ok act)
    (k : String) (src : SimpleSource σ) (_hk : (k, src) ∈ _actions σ)
    (k2 : String) (src2 : AdvancedSource σ)
    (_hk2 : (k2, src2) ∈ custom_ignore σ) :
    (toRecord σ act).help_index = some act.help_index ∧
    (toRecord σ act).icon = some act.icon ∧
    ((prepare_simple σ k src).2).help_index = src.help_index ∧
    ((prepare_simple σ k src).2).icon = src.icon ∧
    ((prepare_advanced σ k2 src2).2).help_index = src2.help_index ∧
    ((prepare_advanced σ k2 src2).2).icon = src2.icon :=
  ⟨rfl, rfl, rfl, rfl, rfl, rfl⟩

/-- Witness for the amended C4: a normalised bare function gets defined
(empty) strings, while the built-in `enter-row` and `ignore` entries
copy their table fields through. -/
theorem claim_C4_amended_witness :
    (toRecord Unit ⟨fnA, "", "", ""⟩).help_index = some "" ∧
    (toRecord Unit ⟨fnA, "", "", ""⟩).icon = some "" ∧
    ((prepare_simple Unit "enter-row" (enter_row_src Unit)).2).help_index
      = (enter_row_src Unit).help_index ∧
    ((prepare_simple Unit "enter-row" (enter_row_src Unit)).2).icon
      = (enter_row_src Unit).icon ∧
    ((prepare_advanced Unit "ignore" (ignore_src Unit)).2).help_index
      = (ignore_src Unit).help_index ∧
    ((prepare_advanced Unit "ignore" (ignore_src Unit)).2).icon
      = (ignore_src Unit).icon :=
  claim_C4_amended Unit (ActionData.func fnA) ⟨fnA, "", "", ""⟩ rfl
    "enter-row" (enter_row_src Unit) (List.Mem.head _)
    "ignore" (ignore_src Unit) (List.Mem.head _)

/-- Claim C5: for every built-in action — simple or advanced — the
stored `help` equals the explicit help field when one is provided, and
otherwise equals the base name with every dash replaced by a space. -/
theorem claim_C5 (σ : Type) (k : String) (src : SimpleSource σ)
    (hk : (k, src) ∈ _actions σ) (k2 : String) (src2 : AdvancedSource σ)
    (hk2 : (k2, src2) ∈ custom_ignore σ) :
    (∀ hs, src.help = some hs → ((prepare_simple σ k src).2).help = hs) ∧
    (src.help = none → ((prepare_simple σ k src).2).help = dashToSpace k) ∧
    (∀ hs, src2.help = some hs → ((prepare_advanced σ k2 src2).2).help = hs) ∧
    (src2.help = none → ((prepare_advanced σ k2 src2).2).help = dashToSpace k2) := by
  refine ⟨?_, ?_, ?_, ?_⟩
  · intro hs hhs
    simp only [_actions, List.mem_cons, List.not_mem_nil, or_false,
      Prod.mk.injEq] at hk
    rcases hk with ⟨-, h2⟩ | ⟨-, h2⟩ | ⟨-, h2⟩ <;> subst h2 <;>
      first
        | exact Option.noConfusion hhs
        | injection hhs
  · intro hnone
    show strOr src.help (dashToSpace k) = dashToSpace k
    rw [hnone]
    rfl
  · intro hs hhs
    simp only [custom_ignore, List.mem_cons, List.not_mem_nil, or_false,
      Prod.mk.injEq] at hk2
    rcases hk2 with ⟨-, h2⟩ | ⟨-, h2⟩ | ⟨-, h2⟩ | ⟨-, h2⟩ | ⟨-, h2⟩ | ⟨-, h2⟩ |
      ⟨-, h2⟩ | ⟨-, h2⟩ <;> subst h2 <;>
      first
        | exact Option.noConfusion hhs
        | injection hhs
  · intro hnone
    show strOr src2.help (dashToSpace k2) = dashToSpace k2
    rw [hnone]
    rfl

/-- Witness for C5: `enter-row` keeps its explicit help;
`move-cursor-up-or-previous-cell` has none, so its help is its base name
with dashes replaced by spaces. -/
theorem claim_C5_witness :
    ((prepare_simple Unit "enter-row" (enter_row_src Unit)).2).help
      = "opens active file or directory" ∧
    ((prepare_advanced Unit "move-cursor-up-or-previous-cell"
        (move_cursor_up_or_previous_cell_src Unit)).2).help
      = dashToSpace "move-cursor-up-or-previous-cell" ∧
    dashToSpace "move-cursor-up-or-previous-cell"
      = "move cursor up or previous cell" :=
  ⟨(claim_C5 Unit "enter-row" (enter_row_src Unit) (List.Mem.head _)
      "move-cursor-up-or-previous-cell"
      (move_cursor_up_or_previous_cell_src Unit)
      (List.Mem.tail _ (List.Mem.head _))).1 _ rfl,
    (claim_C5 Unit "enter-row" (enter_row_src Unit) (List.Mem.head _)
      "move-cursor-up-or-previous-cell"
      (move_cursor_up_or_previous_cell_src Unit)
      (List.Mem.tail _ (List.Mem.head _))).2.2.2 rfl,
    by decide⟩

/-- Claim C6: `register` without an explicit name yields the qualified
name `auto.autogenerated-` followed by the function's textual
representation; two syntactically distinct functions get distinct names,
and the identical function registered twice (whatever the table state)
gets the same name both times. -/
theorem claim_C6 (σ : Type) (proto proto2 : Registry σ)
    (self self2 : ActionHandler σ) (f g : JSFunction σ)
    (hfg : f.src ≠ g.src) :
    (register σ proto self (ActionData.func f) none none).2
      = Except.ok ("auto" ++ "." ++ ("autogenerated-" ++ f.src)) ∧
    (register σ proto self (ActionData.func f) none none).2
      ≠ (register σ proto2 self2 (ActionData.func g) none none).2 ∧
    (register σ proto self (ActionData.func f) none none).2
      = (register σ proto2 self2 (ActionData.func f) none none).2 := by
  refine ⟨rfl, ?_, rfl⟩
  intro hcontra
  apply hfg
  have h0 : (Except.ok ("auto" ++ "." ++ ("autogenerated-" ++ f.src)) :
      Except JSError String)
      = Except.ok ("auto" ++ "." ++ ("autogenerated-" ++ g.src)) := hcontra
  have h1 := Except.ok.inj h0
  exact append_left_inj _ _ _ (append_left_inj _ _ _ h1)

/-- Witness for C6: two concrete, syntactically distinct functions on
the built-in registry. -/
theorem claim_C6_witness :
    (register Unit (final_actions Unit) unitInstance (ActionData.func fnA)
        none none).2
      = Except.ok ("auto" ++ "." ++ ("autogenerated-" ++ fnA.src)) ∧
    (register Unit (final_actions Unit) unitInstance (ActionData.func fnA)
        none none).2
      ≠ (register Unit (final_actions Unit) unitInstance2
          (ActionData.func fnB) none none).2 ∧
    (register Unit (final_actions Unit) unitInstance (ActionData.func fnA)
        none none).2
      = (register Unit (final_actions Unit) unitInstance2
          (ActionData.func fnA) none none).2 :=
  claim_C6 Unit (final_actions Unit) (final_actions Unit) unitInstance
    unitInstance2 fnA fnB (by decide)

/-- Claim C9: the action table lives once on the shared prototype, so
after a successful `register` through any instance, `exists` and `get`
on every instance — the registering one, any other, and any constructed
later — observe the new action under the returned qualified name. -/
theorem claim_C9 (σ : Type) (proto : Registry σ) (a b : ActionHandler σ)
    (data : ActionData σ) (name pfx : Option String) (proto2 : Registry σ)
    (n : String)
    (h : register σ proto a data name pfx = (proto2, Except.ok n)) :
    exists_action σ proto2 b n = true ∧
    ∃ r, get σ proto2 b n = some r := by
  obtain ⟨act, hshape⟩ := register_ok_shape σ proto a data name pfx proto2 n h
  subst hshape
  constructor
  · show (List.lookup n ((n, toRecord σ act) :: proto)).isSome = true
    simp [List.lookup]
  · refine ⟨toRecord σ act, ?_⟩
    show List.lookup n ((n, toRecord σ act) :: proto) = some (toRecord σ act)
    simp [List.lookup]

/-- Witness for C9: register a concrete function through one instance;
a distinct instance sees it under the returned name. -/
theorem claim_C9_witness :
    exists_action Unit
        (register Unit (final_actions Unit) unitInstance
          (ActionData.func fnA) none none).1
        unitInstance2 ("auto" ++ "." ++ ("autogenerated-" ++ fnA.src)) = true ∧
    ∃ r, get Unit
        (register Unit (final_actions Unit) unitInstance
          (ActionData.func fnA) none none).1
        unitInstance2 ("auto" ++ "." ++ ("autogenerated-" ++ fnA.src))
      = some r :=
  claim_C9 Unit (final_actions Unit) unitInstance unitInstance2
    (ActionData.func fnA) none none
    (register Unit (final_actions Unit) unitInstance
      (ActionData.func fnA) none none).1
    ("auto" ++ "." ++ ("autogenerated-" ++ fnA.src)) rfl

end Treeactions
